import Mathlib

/-!
Verification development for the ClaraCore remote deployment service
(`src/electron/remoteServerIPC.cjs`, class `ClaraCoreRemoteService`).

The JavaScript service is shallowly embedded: every remote command execution
is mediated by a world oracle `String → CmdResult` that describes, for each
command string sent over the SSH channel, what the channel returned (collected
stdout, collected stderr, exit code) or whether `conn.exec` itself failed.
JavaScript strings are Lean `String`s; JS string truthiness (`if (s)`) is
`s != ""`; JS `||` on strings is `jsOr`; JS `.trim()`, `.includes()`,
`.startsWith()` and `.replace()` are re-implemented on `List Char` so that
they stay easy to reason about.
-/

namespace Clara

/-- A single-quote character as a string (JS commands embed many of them). -/
def sq : String := String.singleton (Char.ofNat 39)

/-- JS `a || b` on strings: `a` when truthy (non-empty), else `b`. -/
def jsOr (a b : String) : String := if a != "" then a else b

/-- Substring search on character lists (JS `includes` semantics). -/
def listContains (pat : List Char) : List Char → Bool
  | [] => pat.isEmpty
  | x :: xs => pat.isPrefixOf (x :: xs) || listContains pat xs

/-- JS `String.prototype.includes`: substring containment. -/
def strIncludesB (s pat : String) : Bool := listContains pat.data s.data

/-- JS `String.prototype.startsWith`. -/
def strStartsWith (s pat : String) : Bool := pat.data.isPrefixOf s.data

/-- Drop leading whitespace characters. -/
def dropLeadingWs : List Char → List Char
  | [] => []
  | c :: cs => if c.isWhitespace then dropLeadingWs cs else c :: cs

/-- JS `String.prototype.trim`: strip whitespace from both ends. -/
def jsTrim (s : String) : String :=
  String.mk ((dropLeadingWs (dropLeadingWs s.data).reverse).reverse)

/-- Remove the first occurrence of `pat` from a character list
(JS `String.prototype.replace` with a string pattern and empty replacement). -/
def removeFirstSub (pat : List Char) : List Char → List Char
  | [] => []
  | x :: xs =>
    if pat.isPrefixOf (x :: xs) then (x :: xs).drop pat.length
    else x :: removeFirstSub pat xs

/-- JS `s.replace(pat, "")` (string pattern: first occurrence only). -/
def removeFirstSubStr (s pat : String) : String :=
  String.mk (removeFirstSub pat.data s.data)

/-- JS `s.substring(0, n)`. -/
def strSubstring (n : Nat) (s : String) : String := String.mk (s.data.take n)

/-- Outcome of one `conn.exec(command, ...)` call, as seen by the service:
either the `conn.exec` callback reported an error (the promise rejects with
it), or the stream closed with the collected stdout, stderr and exit code. -/
inductive CmdResult where
  | chanErr (msg : String)
  | done (out : String) (err : String) (code : Nat)
deriving DecidableEq

/-- JS `this.sudoPassword.replace(/'/g, "'\\''")`: escape every single quote
in the password for embedding between single quotes in a shell command. -/
def escapeSudoPwChars : List Char → List Char
  | [] => []
  | c :: cs =>
    if c = Char.ofNat 39 then
      Char.ofNat 39 :: Char.ofNat 92 :: Char.ofNat 39 :: Char.ofNat 39 :: escapeSudoPwChars cs
    else c :: escapeSudoPwChars cs

/-- String version of `escapeSudoPwChars`. -/
def escapeSudoPw (p : String) : String := String.mk (escapeSudoPwChars p.data)

/-- JS `command.replace(/^sudo\s+/, "sudo -S ")`: if the command starts with
`sudo` followed by at least one whitespace character, replace that leading
run by `sudo -S `. -/
def replaceSudoPrefixStr (command : String) : String :=
  if strStartsWith command ("sudo") then
    match command.data.drop 4 with
    | [] => command
    | c :: cs =>
      if c.isWhitespace then "sudo -S " ++ String.mk (dropLeadingWs (c :: cs))
      else command
  else command

/-- The sudo-handling command rewrite shared by `execCommand`
(remoteServerIPC.cjs lines 683-697) and `execCommandWithOutput`
(lines 734-748): when a sudo password is stored and the command mentions
`sudo`, the secret is echoed into the standard input of the (whole) command
with every `sudo` turned into `sudo -S`; a plain leading-`sudo` command gets
`echo '<pw>' | sudo -S ...`. -/
def rewriteSudo (sudoPassword : Option String) (command : String) : String :=
  match sudoPassword with
  | none => command
  | some p =>
    if p != "" && strIncludesB command ("sudo") then
      if strIncludesB command ("|") && strIncludesB command ("sudo") then
        "bash -c \"echo " ++ sq ++ escapeSudoPw p ++ sq ++ " | "
          ++ String.replace command ("sudo") ("sudo -S") ++ "\""
      else if strStartsWith (jsTrim command) ("sudo ") then
        "echo " ++ sq ++ escapeSudoPw p ++ sq ++ " | " ++ replaceSudoPrefixStr command
      else command
    else command

/-- `execCommand` (lines 680-725): runs the (sudo-rewritten) command and
resolves `output || errorOutput` regardless of the exit code; it rejects only
when `conn.exec` itself fails. -/
def execCommandE (exec : String → CmdResult) (sudoPassword : Option String)
    (command : String) : Except String String :=
  match exec (rewriteSudo sudoPassword command) with
  | CmdResult.chanErr m => Except.error m
  | CmdResult.done out err _ => Except.ok (jsOr out err)

/-- The warn-log lines `execCommand` emits in its close handler (lines
708-714): when the exit code is non-zero and stderr is non-empty, the
original command and the raw error output are logged, unfiltered. -/
def execCommandCloseLogs (command : String) (res : CmdResult) : List String :=
  match res with
  | CmdResult.chanErr _ => []
  | CmdResult.done _ err code =>
    if code != 0 && err != "" then
      ["Command failed (code " ++ toString code ++ "): " ++ command,
       "Error: " ++ err]
    else []

/-- `execCommandWithOutput` (lines 730-786): resolves unit on exit code 0 and
rejects with `Command failed with code N` otherwise. -/
def execCommandWithOutputE (exec : String → CmdResult) (sudoPassword : Option String)
    (command : String) : Except String Unit :=
  match exec (rewriteSudo sudoPassword command) with
  | CmdResult.chanErr m => Except.error m
  | CmdResult.done _ _ code =>
    if code == 0 then Except.ok () else Except.error ("Command failed with code " ++ toString code)

/-- Stdout forwarding filter of `execCommandWithOutput` (lines 766-772):
a trimmed chunk is forwarded to the log only when non-empty and free of
sudo-prompt text. -/
def fwdStdoutChunk (chunk : String) : Bool :=
  let output := jsTrim chunk
  output != "" && !strIncludesB output ("[sudo] password")
    && !strIncludesB output ("Sorry, try again")

/-- Stderr forwarding filter of `execCommandWithOutput` (lines 774-783). -/
def fwdStderrChunk (chunk : String) : Bool :=
  let output := jsTrim chunk
  output != "" && !strIncludesB output ("[sudo] password")
    && !strIncludesB output ("Sorry, try again")
    && !strIncludesB output ("sudo: a password is required")

/-- The log line `execCommandWithOutput`'s stdout handler emits for one data
chunk (lines 766-772): `[Remote] <trimmed chunk>` when the filter passes,
nothing otherwise. -/
def fwdStdoutLog (chunk : String) : Option String :=
  if fwdStdoutChunk chunk then some ("[Remote] " ++ jsTrim chunk) else none

/-- The log line `execCommandWithOutput`'s stderr handler emits for one data
chunk (lines 774-783). -/
def fwdStderrLog (chunk : String) : Option String :=
  if fwdStderrChunk chunk then some ("[Remote] " ++ jsTrim chunk) else none

/-- The raw diagnostic fields gathered by `detectHardware`
(remoteServerIPC.cjs lines 173-230). -/
structure HardwareDetails where
  docker : Bool
  nvidia : Bool
  rocm : Bool
  strix : Bool
  architecture : String
  dockerVersion : Option String
  gpuInfo : Option String
  cudaVersion : Option String
  rocmVersion : Option String
  cpuModel : Option String
deriving DecidableEq

/-- The value `detectHardware` resolves with (lines 236-265). -/
structure HardwareProfile where
  detected : String
  confidence : String
  details : HardwareDetails
  error : Option String
  unsupportedReason : Option String
deriving DecidableEq

/-- JS truthiness of an optional string field. -/
def jsTruthy : Option String → Bool
  | none => false
  | some s => s != ""

/-- The `nvcc` probe command (line 204). -/
def nvccCmd : String :=
  "nvcc --version 2>/dev/null | grep \"release\" | awk " ++ sq ++ "\x7bprint $5\x7d" ++ sq

/-- The probe phase of `detectHardware` (lines 173-230): the ordered battery
of read-only commands and the raw flags computed from their outputs. Probes
run with no stored sudo password (`testSetup` never sets one). -/
def probeDetails (exec : String → CmdResult) : Except String HardwareDetails := do
  let archInfo ← execCommandE exec none ("uname -m")
  let architecture := if archInfo != "" then jsTrim archInfo else "unknown"
  let dockerVersionOut ← execCommandE exec none ("docker --version 2>/dev/null")
  let docker := dockerVersionOut != "" && !strIncludesB dockerVersionOut ("command not found")
  let dockerVersion := if docker then some (jsTrim dockerVersionOut) else none
  let nvidiaInfo ← execCommandE exec none
    ("nvidia-smi --query-gpu=name --format=csv,noheader 2>/dev/null")
  let nvidia := nvidiaInfo != "" && !strIncludesB nvidiaInfo ("command not found")
    && jsTrim nvidiaInfo != ""
  let gpuInfo := if nvidia then some (jsTrim nvidiaInfo) else none
  let cudaVersion ← if nvidia then do
      let cv ← execCommandE exec none nvccCmd
      pure (if cv != "" && jsTrim cv != "" then some (removeFirstSubStr (jsTrim cv) (",")) else none)
    else pure (none : Option String)
  let rocmInfo ← execCommandE exec none ("rocm-smi --showproductname 2>/dev/null")
  let rocm := rocmInfo != "" && !strIncludesB rocmInfo ("command not found")
    && jsTrim rocmInfo != ""
  let rocmVersion ← if rocm then do
      let rv ← execCommandE exec none ("cat /opt/rocm/.info/version 2>/dev/null")
      pure (if rv != "" && jsTrim rv != "" then some (jsTrim rv) else none)
    else pure (none : Option String)
  let cpuInfo ← execCommandE exec none ("lscpu | grep \"Model name\"")
  let cpuModel := if cpuInfo != "" then some (jsTrim (removeFirstSubStr cpuInfo ("Model name:")))
    else none
  let strix := cpuInfo != "" && (strIncludesB cpuInfo ("Ryzen AI Max")
    || strIncludesB cpuInfo ("Strix") || strIncludesB cpuInfo ("8040"))
  pure { docker := docker, nvidia := nvidia, rocm := rocm, strix := strix,
         architecture := architecture, dockerVersion := dockerVersion,
         gpuInfo := gpuInfo, cudaVersion := cudaVersion,
         rocmVersion := rocmVersion, cpuModel := cpuModel }

/-- The classification tail of `detectHardware` (lines 232-265): ARM check
first, then the nvidia / strix / rocm / cpu cascade. -/
def classifyHardware (d : HardwareDetails) : HardwareProfile :=
  let isARM := strIncludesB d.architecture ("arm") || strIncludesB d.architecture ("aarch")
  if isARM then
    { detected := "unsupported", confidence := "high", details := d,
      error := some ("ARM architecture (" ++ d.architecture
        ++ ") is not supported yet. ClaraCore Docker images are currently only available for x86_64/amd64 architecture."),
      unsupportedReason := some ("arm") }
  else if d.nvidia then
    { detected := "cuda",
      confidence := if jsTruthy d.cudaVersion then "high" else "medium",
      details := d, error := none, unsupportedReason := none }
  else if d.strix then
    { detected := "strix", confidence := "high", details := d,
      error := none, unsupportedReason := none }
  else if d.rocm then
    { detected := "rocm", confidence := "high", details := d,
      error := none, unsupportedReason := none }
  else
    { detected := "cpu", confidence := "high", details := d,
      error := none, unsupportedReason := none }

/-- `detectHardware` (lines 173-271): gather the probe details, then classify.
The surrounding JS try/catch only logs and rethrows, so it is semantically
the identity on the `Except` value. -/
def detectHardware (exec : String → CmdResult) : Except String HardwareProfile := do
  let d ← probeDetails exec
  pure (classifyHardware d)

/-- `buildDockerRunCommand` (lines 440-463): baseline flags plus
accelerator-specific device/capability flags; the JS `switch` has cases
`cuda`, `rocm`, `strix`, and a shared `cpu`/`default` branch. -/
def buildDockerRunCommand (hardwareType containerName imageName : String) : String :=
  let baseCmd := "docker run -d --name " ++ containerName
    ++ " --restart unless-stopped -p 5890:5890"
  let volume := "-v claracore-" ++ hardwareType ++ "-downloads:/app/downloads"
  if hardwareType = "cuda" then
    baseCmd ++ " --gpus all " ++ volume ++ " " ++ imageName
  else if hardwareType = "rocm" then
    baseCmd ++ " --device=/dev/kfd --device=/dev/dri --group-add video --ipc=host --cap-add=SYS_PTRACE --security-opt seccomp=unconfined "
      ++ volume ++ " " ++ imageName
  else if hardwareType = "strix" then
    baseCmd ++ " --device=/dev/dri --group-add video --security-opt seccomp=unconfined "
      ++ volume ++ " " ++ imageName
  else
    baseCmd ++ " " ++ volume ++ " " ++ imageName

/-- The regions of `deploy`'s ready handler (lines 302-355), named after the
deployment steps of the specification. A step is recorded when `deploy`
enters the corresponding region of code. -/
inductive Step where
  | checkingDocker
  | installingPrerequisites
  | cleaningUp
  | pullingImage
  | deploying
  | verifying
deriving DecidableEq

/-- Monad for the body of `deploy`'s ready handler: failures are thrown
error messages, the state is the list of step regions entered so far
(kept on failure, as the work up to the throw really happened). -/
abbrev DeployM := ExceptT String (StateM (List Step))

/-- Record entry into a step region. -/
def emit (s : Step) : DeployM Unit :=
  ExceptT.lift (modify (fun l => l ++ [s]))

/-- Lift an `Except` outcome into `DeployM`. -/
def liftE {α : Type} (e : Except String α) : DeployM α := ExceptT.mk (pure e)

/-- `this.execCommand(conn, command)` inside the deploy body. -/
def execM (exec : String → CmdResult) (pw : Option String) (command : String) :
    DeployM String :=
  liftE (execCommandE exec pw command)

/-- `this.execCommandWithOutput(conn, command)` inside the deploy body. -/
def execWithOutputM (exec : String → CmdResult) (pw : Option String) (command : String) :
    DeployM Unit :=
  liftE (execCommandWithOutputE exec pw command)

/-- `checkDocker` (lines 468-475): truthy `docker --version` output without
`command not found`; any exception yields `false`. -/
def checkDockerM (exec : String → CmdResult) (pw : Option String) : DeployM Bool :=
  tryCatch
    (do
      let result ← execM exec pw ("docker --version 2>/dev/null")
      pure (result != "" && !strIncludesB result ("command not found")))
    (fun _ => pure false)

/-- `detectDistro` (lines 527-535). -/
def detectDistro (osRelease : String) : String :=
  if strIncludesB osRelease ("Ubuntu") then "Ubuntu"
  else if strIncludesB osRelease ("Debian") then "Debian"
  else if strIncludesB osRelease ("Fedora") then "Fedora"
  else if strIncludesB osRelease ("CentOS") then "CentOS"
  else if strIncludesB osRelease ("Red Hat") then "RHEL"
  else if strIncludesB osRelease ("Arch") then "Arch Linux"
  else "Unknown Linux"

/-- `installDocker` (lines 481-522): convenience-script install; any failure
is rethrown as `Failed to install Docker: ...`. -/
def installDockerM (exec : String → CmdResult) (pw : Option String) : DeployM Unit :=
  tryCatch
    (do
      let osRelease ← execM exec pw ("cat /etc/os-release")
      let _ := detectDistro osRelease
      let _ ← execM exec pw ("curl -fsSL https://get.docker.com -o /tmp/get-docker.sh")
      execWithOutputM exec pw ("sudo sh /tmp/get-docker.sh")
      let _ ← execM exec pw ("rm /tmp/get-docker.sh")
      let username ← execM exec pw ("whoami")
      let user := if jsTrim username != "" then jsTrim username else "ubuntu"
      let _ ← execM exec pw ("sudo usermod -aG docker " ++ user)
      let _ ← execM exec pw ("sudo systemctl start docker")
      let _ ← execM exec pw ("sudo systemctl enable docker")
      pure ())
    (fun e => throw ("Failed to install Docker: " ++ e))

/-- `installNvidiaToolkitApt` (lines 614-635). -/
def installNvidiaToolkitAptM (exec : String → CmdResult) (pw : Option String) : DeployM Unit := do
  execWithOutputM exec pw
    ("curl -fsSL https://nvidia.github.io/libnvidia-container/gpgkey | sudo gpg --dearmor -o /usr/share/keyrings/nvidia-container-toolkit-keyring.gpg")
  execWithOutputM exec pw
    ("curl -s -L https://nvidia.github.io/libnvidia-container/stable/deb/nvidia-container-toolkit.list | sed "
      ++ sq ++ "s#deb https://#deb [signed-by=/usr/share/keyrings/nvidia-container-toolkit-keyring.gpg] https://#g"
      ++ sq ++ " | sudo tee /etc/apt/sources.list.d/nvidia-container-toolkit.list")
  execWithOutputM exec pw ("sudo apt-get update")
  execWithOutputM exec pw ("sudo apt-get install -y nvidia-container-toolkit")

/-- `installNvidiaToolkitYum` (lines 640-653). -/
def installNvidiaToolkitYumM (exec : String → CmdResult) (pw : Option String) : DeployM Unit := do
  execWithOutputM exec pw
    ("curl -s -L https://nvidia.github.io/libnvidia-container/stable/rpm/nvidia-container-toolkit.repo | sudo tee /etc/yum.repos.d/nvidia-container-toolkit.repo")
  execWithOutputM exec pw ("sudo yum install -y nvidia-container-toolkit")

/-- `setupCuda` (lines 540-609); its try/catch only logs and rethrows. -/
def setupCudaM (exec : String → CmdResult) (pw : Option String) : DeployM Unit := do
  let nvidiaCheck ← execM exec pw ("nvidia-smi 2>/dev/null")
  if nvidiaCheck == "" || strIncludesB nvidiaCheck ("command not found") then
    throw ("NVIDIA drivers not found. Please install NVIDIA drivers first.")
  let hasToolkit ← execM exec pw ("which nvidia-ctk 2>/dev/null")
  if hasToolkit == "" || jsTrim hasToolkit == "" then do
    let hasApt ← execM exec pw ("which apt-get 2>/dev/null")
    let hasYum ← execM exec pw ("which yum 2>/dev/null")
    if hasApt != "" && jsTrim hasApt != "" then installNvidiaToolkitAptM exec pw
    else if hasYum != "" && jsTrim hasYum != "" then installNvidiaToolkitYumM exec pw
    else throw ("Unsupported package manager. Only apt and yum are supported.")
  let _ ← execM exec pw ("sudo nvidia-ctk runtime configure --runtime=docker")
  let _ ← execM exec pw ("sudo systemctl daemon-reload")
  let _ ← execM exec pw ("sudo systemctl restart docker")
  let dockerContext ← execM exec pw ("docker context show 2>/dev/null")
  if dockerContext != "" && strIncludesB dockerContext ("desktop-linux") then do
    let _ ← execM exec pw ("docker context use default")
    let username ← execM exec pw ("whoami")
    let user := jsTrim username
    let _ ← execM exec pw ("sudo usermod -aG docker " ++ user)
    pure ()
  let runtimeCheck ← execM exec pw ("docker info 2>/dev/null | grep -i runtime")
  let _ := strIncludesB runtimeCheck ("nvidia")
  pure ()

/-- `setupRocm` (lines 658-661). -/
def setupRocmM (exec : String → CmdResult) (pw : Option String) : DeployM Unit := do
  let _ ← execM exec pw ("sudo usermod -a -G video,render $USER")
  pure ()

/-- The udev rules text used by `setupStrix` (lines 668-669). -/
def udevRules : String :=
  "SUBSYSTEM==\"kfd\", GROUP=\"render\", MODE=\"0666\", OPTIONS+=\"last_rule\"\nSUBSYSTEM==\"drm\", KERNEL==\"card[0-9]*\", GROUP=\"render\", MODE=\"0666\", OPTIONS+=\"last_rule\""

/-- `setupStrix` (lines 666-675). -/
def setupStrixM (exec : String → CmdResult) (pw : Option String) : DeployM Unit := do
  let _ ← execM exec pw ("echo " ++ sq ++ udevRules ++ sq
    ++ " | sudo tee /etc/udev/rules.d/99-amd-kfd.rules")
  let _ ← execM exec pw ("sudo udevadm control --reload-rules")
  let _ ← execM exec pw ("sudo udevadm trigger")
  let _ ← execM exec pw ("sudo usermod -a -G video,render $USER")
  pure ()

/-- The `docker inspect` command of the verify region (line 341). -/
def inspectCommand (containerName : String) : String :=
  "docker inspect " ++ containerName ++ " --format=" ++ sq
    ++ "\x7b\x7b.State.Status\x7d\x7d: \x7b\x7b.State.Error\x7d\x7d" ++ sq
    ++ " 2>&1 || echo \"Container not found\""

/-- The config object handed to `deploy`/`testSetup`. -/
structure DeployConfig where
  host : String
  port : Nat
  username : String
  password : String
  hardwareType : String

/-- The value `deploy` resolves with on success (lines 365-369). -/
structure DeploySuccess where
  url : String
  containerName : String

/-- The body of `deploy`'s `ready` handler (lines 295-355): docker check,
conditional install, hardware-specific setup, cleanup, pull, run, verify,
optional health probe. -/
def deployBody (cfg : DeployConfig) (exec : String → CmdResult) (pw : Option String) :
    DeployM DeploySuccess := do
  let hardwareType := cfg.hardwareType
  let imageName := "clara17verse/claracore:" ++ hardwareType
  let containerName := "claracore-" ++ hardwareType
  emit Step.checkingDocker
  let hasDocker ← checkDockerM exec pw
  if !hasDocker then do
    emit Step.installingPrerequisites
    installDockerM exec pw
  if hardwareType == "cuda" then do
    emit Step.installingPrerequisites
    setupCudaM exec pw
  else if hardwareType == "rocm" then do
    emit Step.installingPrerequisites
    setupRocmM exec pw
  else if hardwareType == "strix" then do
    emit Step.installingPrerequisites
    setupStrixM exec pw
  emit Step.cleaningUp
  let _ ← execM exec pw ("docker stop " ++ containerName ++ " 2>/dev/null || true")
  let _ ← execM exec pw ("docker rm " ++ containerName ++ " 2>/dev/null || true")
  emit Step.pullingImage
  execWithOutputM exec pw ("docker pull " ++ imageName)
  emit Step.deploying
  let runCommand := buildDockerRunCommand hardwareType containerName imageName
  let _ ← execM exec pw runCommand
  emit Step.verifying
  let isRunning ← execM exec pw ("docker ps -q -f name=" ++ containerName)
  if isRunning == "" || jsTrim isRunning == "" then do
    let logs ← execM exec pw ("docker logs " ++ containerName
      ++ " 2>&1 || echo \"No logs available\"")
    let inspectResult ← execM exec pw (inspectCommand containerName)
    throw ("Container failed to start.\n\nStatus: " ++ inspectResult
      ++ "\n\nLogs:\n" ++ strSubstring 500 logs)
  let healthCheck ← execM exec pw
    ("curl -sf http://localhost:5890/health 2>&1 || echo \"Health check not available\"")
  let _ := strIncludesB healthCheck ("Health check not available")
  pure { url := "http://" ++ cfg.host ++ ":5890", containerName := containerName }

/-- Run the deploy body from the empty step trace. -/
def runDeployBody (cfg : DeployConfig) (exec : String → CmdResult) (pw : Option String) :
    Except String DeploySuccess × List Step :=
  ((deployBody cfg exec pw).run).run []

/-- Which of the promise-settling events of one `deploy`/`testSetup`
invocation fires: the SSH session becomes ready, the connection emits an
error (with ssh2 `level`/`code`/`message` fields), or the watchdog timeout
expires first. -/
inductive SshEvent where
  | ready
  | errorEv (level : String) (code : String) (message : String)
  | timeout
deriving DecidableEq

/-- A world for one invocation: which event settles it, and how the remote
channel answers each executed command while the session is up. -/
structure DeployWorld where
  event : SshEvent
  exec : String → CmdResult

/-- How a promise settled: resolved with a result object (success flag and
optional classified error message), or rejected with a raw `Error`. -/
inductive Settle where
  | resolved (success : Bool) (error : Option String)
  | rejected (msg : String)
deriving DecidableEq

/-- Error-message classification in `deploy`'s catch branch (lines 384-389). -/
def classifyDeployError (m : String) : String :=
  if strIncludesB m ("incorrect password") then
    "Incorrect sudo password. Please verify your SSH password and try again."
  else if strIncludesB m ("Permission denied") then
    "SSH authentication failed. Please check your credentials."
  else m

/-- Error-message classification in `deploy`'s connection-error handler
(lines 409-416). -/
def classifyConnError (level code message : String) : String :=
  if level == "client-authentication" then
    "SSH authentication failed. Please check your username and password."
  else if code == "ECONNREFUSED" then
    "Connection refused. Please check the host and port."
  else if code == "ETIMEDOUT" || code == "ENOTFOUND" then
    "Connection timeout. Please check the host address and your network connection."
  else message

/-- Observable outcome of one `deploy` invocation: how the promise settled,
the url of the success object, the step regions entered, how many times
`conn.end()` was called on that path, and the value of `this.sudoPassword`
at the moment the promise settled. -/
structure DeployOutcome where
  settle : Settle
  url : Option String
  steps : List Step
  endCalls : Nat
  sudoPassword : Option String
deriving DecidableEq

/-- `deploy` (lines 276-434). `this.sudoPassword` is set to the config
password before any event fires. On watchdog expiry (lines 284-290) the
connection is ended and the promise REJECTS, with no clearing of the
password. On a connection error (lines 399-423) the password is cleared and
a classified failure result is resolved, with no `conn.end()` call. On ready
(lines 292-397) the body runs; both its success and its catch branch call
`conn.end()` once, clear the password, and resolve a result. -/
def deploy (cfg : DeployConfig) (w : DeployWorld) : DeployOutcome :=
  match w.event with
  | SshEvent.timeout =>
    { settle := Settle.rejected ("Deployment timeout after 5 minutes"),
      url := none, steps := [], endCalls := 1, sudoPassword := some cfg.password }
  | SshEvent.errorEv level code msg =>
    { settle := Settle.resolved false (some (classifyConnError level code msg)),
      url := none, steps := [], endCalls := 0, sudoPassword := none }
  | SshEvent.ready =>
    match runDeployBody cfg w.exec (some cfg.password) with
    | (Except.ok r, steps) =>
      { settle := Settle.resolved true none, url := some r.url,
        steps := steps, endCalls := 1, sudoPassword := none }
    | (Except.error m, steps) =>
      { settle := Settle.resolved false (some (classifyDeployError m)),
        url := none, steps := steps, endCalls := 1, sudoPassword := none }

/-- Observable outcome of one `testSetup` invocation. -/
structure TestOutcome where
  settle : Settle
  hardware : Option HardwareProfile
  endCalls : Nat
deriving DecidableEq

/-- `testSetup` (lines 102-168): on ready it runs `detectHardware`, ends the
connection and resolves with the profile (or with the failure message); on a
connection error it resolves the raw error message WITHOUT ending the
connection; on watchdog expiry it ends the connection and rejects. -/
def testSetup (cfg : DeployConfig) (w : DeployWorld) : TestOutcome :=
  match w.event with
  | SshEvent.timeout =>
    { settle := Settle.rejected ("Connection timeout after 30 seconds"),
      hardware := none, endCalls := 1 }
  | SshEvent.errorEv _ _ msg =>
    { settle := Settle.resolved false (some msg), hardware := none, endCalls := 0 }
  | SshEvent.ready =>
    match detectHardware w.exec with
    | Except.ok hw =>
      { settle := Settle.resolved true none, hardware := some hw, endCalls := 1 }
    | Except.error m =>
      { settle := Settle.resolved false (some m), hardware := none, endCalls := 1 }

/-! ## Concrete worlds used by the claim theorems -/

/-- An ARM host: `uname -m` reports `aarch64`, docker is present, and the
container comes up after `docker run`. -/
def armWorld : DeployWorld :=
  { event := SshEvent.ready,
    exec := fun c =>
      if c = "uname -m" then CmdResult.done ("aarch64") ("") 0
      else if c = "docker ps -q -f name=claracore-cpu" then CmdResult.done ("f3a2") ("") 0
      else if c = "docker --version 2>/dev/null" then CmdResult.done ("Docker version 24.0.7") ("") 0
      else CmdResult.done ("") ("") 0 }

/-- Config used against the ARM host. -/
def armCfg : DeployConfig :=
  { host := "armbox", port := 22, username := "pi", password := "raspberry",
    hardwareType := "cpu" }

/-- Probe details of an ARM host (as `probeDetails` computes them on
`armWorld`). -/
def armDetails : HardwareDetails :=
  { docker := true, nvidia := false, rocm := false, strix := false,
    architecture := "aarch64", dockerVersion := some ("Docker version 24.0.7"),
    gpuInfo := none, cudaVersion := none, rocmVersion := none, cpuModel := none }

/-- The hardware profile `detectHardware` produces on `armWorld`. -/
def armProfile : HardwareProfile :=
  { detected := "unsupported", confidence := "high", details := armDetails,
    error := some ("ARM architecture (aarch64) is not supported yet. ClaraCore Docker images are currently only available for x86_64/amd64 architecture."),
    unsupportedReason := some ("arm") }

/-- A world whose settling event is the watchdog timeout. -/
def timeoutWorld : DeployWorld :=
  { event := SshEvent.timeout, exec := fun _ => CmdResult.done ("") ("") 0 }

/-- A world whose settling event is a connection error (refused). -/
def refusedWorld : DeployWorld :=
  { event := SshEvent.errorEv ("") ("ECONNREFUSED") ("connect ECONNREFUSED 10.0.0.9:22"),
    exec := fun _ => CmdResult.done ("") ("") 0 }

/-- Generic config for failure-path scenarios. -/
def plainCfg : DeployConfig :=
  { host := "box", port := 22, username := "clara", password := "hunter2",
    hardwareType := "cpu" }

/-- Probe details where every accelerator signal fires at once. -/
def allSignalsDetails : HardwareDetails :=
  { docker := true, nvidia := true, rocm := true, strix := true,
    architecture := "x86_64", dockerVersion := some ("Docker version 24.0.7"),
    gpuInfo := some ("NVIDIA GeForce RTX 4090"), cudaVersion := some ("12.4"),
    rocmVersion := some ("6.0"), cpuModel := some ("AMD Ryzen AI Max 395") }

/-- A world whose settling event is an authentication-rejection error. -/
def authErrWorld : DeployWorld :=
  { event := SshEvent.errorEv ("client-authentication") ("") ("All configured authentication methods failed"),
    exec := fun _ => CmdResult.done ("") ("") 0 }

/-- Config for the verification-failure scenarios. -/
def c8cfg : DeployConfig :=
  { host := "deployhost", port := 22, username := "clara", password := "pw",
    hardwareType := "cpu" }

/-- A world where deployment proceeds normally but the container is not
observed running after the post-start wait; the captured logs and inspect
outputs are parameters. -/
def c8World (logsOut inspectOut : String) : DeployWorld :=
  { event := SshEvent.ready,
    exec := fun c =>
      if c = "docker ps -q -f name=claracore-cpu" then CmdResult.done ("") ("") 0
      else if c = "docker logs claracore-cpu 2>&1 || echo \"No logs available\"" then
        CmdResult.done logsOut ("") 0
      else if c = inspectCommand ("claracore-cpu") then CmdResult.done inspectOut ("") 0
      else if c = "docker --version 2>/dev/null" then
        CmdResult.done ("Docker version 24.0.7") ("") 0
      else CmdResult.done ("ok") ("") 0 }

/-- Config for the cleanup-tolerance scenario. -/
def c9cfg : DeployConfig :=
  { host := "cleanbox", port := 22, username := "clara", password := "pw",
    hardwareType := "cpu" }

/-- A world where everything succeeds except that the two cleanup commands
return arbitrary outputs and exit codes (in particular `no such container`
failures). -/
def c9World (stopOut stopErr rmOut rmErr : String) (stopCode rmCode : Nat) : DeployWorld :=
  { event := SshEvent.ready,
    exec := fun c =>
      if c = "docker stop claracore-cpu 2>/dev/null || true" then
        CmdResult.done stopOut stopErr stopCode
      else if c = "docker rm claracore-cpu 2>/dev/null || true" then
        CmdResult.done rmOut rmErr rmCode
      else if c = "docker ps -q -f name=claracore-cpu" then CmdResult.done ("f3a2") ("") 0
      else if c = "docker --version 2>/dev/null" then
        CmdResult.done ("Docker version 24.0.7") ("") 0
      else CmdResult.done ("ok") ("") 0 }

/-! ## C6 -/

/-- Claim C6: on a non-ARM probe result, classification follows the fixed
cascade: an NVIDIA device yields `cuda` (confidence `high` when a CUDA
toolkit version was captured, else `medium`) regardless of the strix and
rocm flags; otherwise a strix CPU signature yields `strix` at `high`;
otherwise a ROCm device yields `rocm` at `high`; otherwise `cpu` at `high`. -/
theorem C6_theorem (d : HardwareDetails)
    (harm : (strIncludesB d.architecture ("arm") || strIncludesB d.architecture ("aarch")) = false) :
    (d.nvidia = true →
      (classifyHardware d).detected = "cuda" ∧
      (classifyHardware d).confidence = (if jsTruthy d.cudaVersion then "high" else "medium"))
    ∧ (d.nvidia = false → d.strix = true →
      (classifyHardware d).detected = "strix" ∧ (classifyHardware d).confidence = "high")
    ∧ (d.nvidia = false → d.strix = false → d.rocm = true →
      (classifyHardware d).detected = "rocm" ∧ (classifyHardware d).confidence = "high")
    ∧ (d.nvidia = false → d.strix = false → d.rocm = false →
      (classifyHardware d).detected = "cpu" ∧ (classifyHardware d).confidence = "high") := by
  refine ⟨?_, ?_, ?_, ?_⟩ <;> intros <;>
    constructor <;> simp [classifyHardware, harm, *]



/-- Witness for C6: a host matching the nvidia, strix and rocm signals at
once is classified `cuda` at `high` confidence. -/
theorem C6_witness :
    (classifyHardware allSignalsDetails).detected = "cuda" ∧
    (classifyHardware allSignalsDetails).confidence
      = (if jsTruthy allSignalsDetails.cudaVersion then "high" else "medium") :=
  (C6_theorem allSignalsDetails (by decide)).1 rfl

/-! ## C7 -/

/-- Claim C7: for each hardware type, the docker run command built by the
deploying step (container and image names as `deploy` derives them) is the
baseline command (detached, restart policy, name, port mapping 5890:5890,
persistent downloads volume) plus exactly the accelerator-specific flags:
`--gpus all` for cuda; kfd and dri device nodes, video group, host IPC,
SYS_PTRACE and unconfined seccomp for rocm; dri device node, video group and
unconfined seccomp for strix; nothing extra for cpu. -/
theorem C7_theorem :
    buildDockerRunCommand ("cuda") ("claracore-cuda") ("clara17verse/claracore:cuda")
      = "docker run -d --name claracore-cuda --restart unless-stopped -p 5890:5890 --gpus all -v claracore-cuda-downloads:/app/downloads clara17verse/claracore:cuda"
    ∧ buildDockerRunCommand ("rocm") ("claracore-rocm") ("clara17verse/claracore:rocm")
      = "docker run -d --name claracore-rocm --restart unless-stopped -p 5890:5890 --device=/dev/kfd --device=/dev/dri --group-add video --ipc=host --cap-add=SYS_PTRACE --security-opt seccomp=unconfined -v claracore-rocm-downloads:/app/downloads clara17verse/claracore:rocm"
    ∧ buildDockerRunCommand ("strix") ("claracore-strix") ("clara17verse/claracore:strix")
      = "docker run -d --name claracore-strix --restart unless-stopped -p 5890:5890 --device=/dev/dri --group-add video --security-opt seccomp=unconfined -v claracore-strix-downloads:/app/downloads clara17verse/claracore:strix"
    ∧ buildDockerRunCommand ("cpu") ("claracore-cpu") ("clara17verse/claracore:cpu")
      = "docker run -d --name claracore-cpu --restart unless-stopped -p 5890:5890 -v claracore-cpu-downloads:/app/downloads clara17verse/claracore:cpu" :=
  ⟨rfl, rfl, rfl, rfl⟩

/-! ## C10 -/

/-- Claim C10: `buildDockerRunCommand` is total over hardware-type strings:
any type other than cuda, rocm and strix — including arbitrary unrecognized
strings — takes the default branch and yields the baseline command with no
accelerator flags (the volume name still embeds the given type). -/
theorem C10_theorem (ht n i : String)
    (h1 : ht ≠ "cuda") (h2 : ht ≠ "rocm") (h3 : ht ≠ "strix") :
    buildDockerRunCommand ht n i
      = "docker run -d --name " ++ n ++ " --restart unless-stopped -p 5890:5890"
        ++ " " ++ ("-v claracore-" ++ ht ++ "-downloads:/app/downloads") ++ " " ++ i := by
  simp only [buildDockerRunCommand, if_neg h1, if_neg h2, if_neg h3]

/-- Witness for C10 at the unrecognized type `tpu`. -/
theorem C10_witness :
    buildDockerRunCommand ("tpu") ("claracore-tpu") ("clara17verse/claracore:tpu")
      = "docker run -d --name " ++ "claracore-tpu" ++ " --restart unless-stopped -p 5890:5890"
        ++ " " ++ ("-v claracore-" ++ "tpu" ++ "-downloads:/app/downloads") ++ " "
        ++ "clara17verse/claracore:tpu" :=
  C10_theorem ("tpu") ("claracore-tpu") ("clara17verse/claracore:tpu")
    (by decide) (by decide) (by decide)

/-! ## C1 -/

/-- Counterexample to claim C1: a host whose reported architecture is
`aarch64` (ARM family) — and which `detectHardware` duly classifies as
unsupported at high confidence — is nevertheless deployed to successfully:
`deploy` never queries the architecture, enters the cleanup, pull, deploy
and verify regions, and resolves success, instead of terminating at the
docker check with an unsupported-hardware error. -/
theorem C1_counterexample :
    armWorld.exec ("uname -m") = CmdResult.done ("aarch64") ("") 0
    ∧ detectHardware armWorld.exec = Except.ok armProfile
    ∧ armProfile.detected = "unsupported" ∧ armProfile.confidence = "high"
    ∧ armProfile.unsupportedReason = some ("arm")
    ∧ (deploy armCfg armWorld).settle = Settle.resolved true none
    ∧ (deploy armCfg armWorld).steps
      = [Step.checkingDocker, Step.cleaningUp, Step.pullingImage,
         Step.deploying, Step.verifying] :=
  ⟨rfl, rfl, rfl, rfl, rfl, rfl, rfl⟩

/-- Claim C1 as amended: hardware detection classifies every ARM-family
architecture string as `unsupported` at `high` confidence with reason `arm`;
`deploy`, however, performs no hardware detection at all — against the same
ARM host it still enters the cleaning-up, pulling-image, deploying and
verifying regions and can resolve success. -/
theorem C1_theorem :
    (∀ d : HardwareDetails,
      (strIncludesB d.architecture ("arm") || strIncludesB d.architecture ("aarch")) = true →
      (classifyHardware d).detected = "unsupported"
      ∧ (classifyHardware d).confidence = "high"
      ∧ (classifyHardware d).unsupportedReason = some ("arm"))
    ∧ (deploy armCfg armWorld).steps
      = [Step.checkingDocker, Step.cleaningUp, Step.pullingImage,
         Step.deploying, Step.verifying]
    ∧ (deploy armCfg armWorld).settle = Settle.resolved true none := by
  refine ⟨?_, rfl, rfl⟩
  intro d h
  refine ⟨?_, ?_, ?_⟩ <;> simp [classifyHardware, h]

/-- Witness for C1: the detection half applied to the `aarch64` host. -/
theorem C1_witness :
    (classifyHardware armDetails).detected = "unsupported"
    ∧ (classifyHardware armDetails).confidence = "high"
    ∧ (classifyHardware armDetails).unsupportedReason = some ("arm") :=
  C1_theorem.1 armDetails (by decide)

/-! ## C2 -/

/-- Counterexample to claim C2: when the watchdog timeout expires, both
`deploy` (line 288) and `testSetup` (line 111) REJECT the promise with a raw
`Error` instead of settling with a result value — a raw error is propagated
to the caller. -/
theorem C2_counterexample :
    (deploy plainCfg timeoutWorld).settle
      = Settle.rejected ("Deployment timeout after 5 minutes")
    ∧ (testSetup plainCfg timeoutWorld).settle
      = Settle.rejected ("Connection timeout after 30 seconds") :=
  ⟨rfl, rfl⟩

/-- Claim C2 as amended: on every settling path except watchdog expiry —
ready (success or any internal failure, which the catch branch classifies)
and connection error — `deploy` and `testSetup` resolve with exactly one
result value; only the watchdog path rejects with a raw error. -/
theorem C2_theorem :
    (∀ (cfg : DeployConfig) (w : DeployWorld), w.event ≠ SshEvent.timeout →
      ∃ b e, (deploy cfg w).settle = Settle.resolved b e)
    ∧ (∀ (cfg : DeployConfig) (w : DeployWorld), w.event ≠ SshEvent.timeout →
      ∃ b e, (testSetup cfg w).settle = Settle.resolved b e) := by
  constructor
  · intro cfg w h
    obtain ⟨ev, exec⟩ := w
    cases ev with
    | timeout => exact absurd rfl h
    | errorEv l c m => exact ⟨false, some (classifyConnError l c m), rfl⟩
    | ready =>
      rcases hr : runDeployBody cfg exec (some cfg.password) with ⟨res, steps⟩
      cases res with
      | ok r =>
        exact ⟨true, none, by simp only [deploy, hr]⟩
      | error m =>
        exact ⟨false, some (classifyDeployError m), by simp only [deploy, hr]⟩
  · intro cfg w h
    obtain ⟨ev, exec⟩ := w
    cases ev with
    | timeout => exact absurd rfl h
    | errorEv l c m => exact ⟨false, some m, rfl⟩
    | ready =>
      cases hr : detectHardware exec with
      | ok hw => exact ⟨true, none, by simp only [testSetup, hr]⟩
      | error m => exact ⟨false, some m, by simp only [testSetup, hr]⟩

/-- Witness for C2: both halves at the connection-refused world. -/
theorem C2_witness :
    (∃ b e, (deploy plainCfg refusedWorld).settle = Settle.resolved b e)
    ∧ (∃ b e, (testSetup plainCfg refusedWorld).settle = Settle.resolved b e) :=
  ⟨C2_theorem.1 plainCfg refusedWorld (by decide),
   C2_theorem.2 plainCfg refusedWorld (by decide)⟩

/-! ## C3 -/



/-- Counterexample to claim C3: on the connection-error path the promise
settles (here with a classified failure result) but `conn.end()` is never
called — the handlers at lines 146-157 and 399-423 contain no close call,
so the connection is not closed exactly once on every path. -/
theorem C3_counterexample :
    (deploy plainCfg authErrWorld).settle
      = Settle.resolved false
          (some ("SSH authentication failed. Please check your username and password."))
    ∧ (deploy plainCfg authErrWorld).endCalls = 0
    ∧ (testSetup plainCfg authErrWorld).endCalls = 0 :=
  ⟨rfl, rfl, rfl⟩

/-- Claim C3 as amended: `deploy` and `testSetup` call `conn.end()` exactly
once before settling on the ready paths (success, detection failure and
deployment failure) and on the watchdog path; on the connection-error path
they settle without any `conn.end()` call. -/
theorem C3_theorem :
    (∀ (cfg : DeployConfig) (w : DeployWorld),
      (deploy cfg w).endCalls
        = (match w.event with | SshEvent.errorEv _ _ _ => 0 | _ => 1))
    ∧ (∀ (cfg : DeployConfig) (w : DeployWorld),
      (testSetup cfg w).endCalls
        = (match w.event with | SshEvent.errorEv _ _ _ => 0 | _ => 1)) := by
  constructor
  · intro cfg w
    obtain ⟨ev, exec⟩ := w
    cases ev with
    | timeout => rfl
    | errorEv l c m => rfl
    | ready =>
      rcases hr : runDeployBody cfg exec (some cfg.password) with ⟨res, steps⟩
      cases res with
      | ok r => simp only [deploy, hr]
      | error m => simp only [deploy, hr]
  · intro cfg w
    obtain ⟨ev, exec⟩ := w
    cases ev with
    | timeout => rfl
    | errorEv l c m => rfl
    | ready =>
      cases hr : detectHardware exec with
      | ok hw => simp only [testSetup, hr]
      | error m => simp only [testSetup, hr]

/-! ## C4 -/

/-- Counterexample to claim C4: when the deployment watchdog expires, the
promise settles (rejects, lines 284-290) while `this.sudoPassword` still
holds the secret — the timeout path performs no clearing, so the secret
outlives the invocation. -/
theorem C4_counterexample :
    (deploy plainCfg timeoutWorld).settle
      = Settle.rejected ("Deployment timeout after 5 minutes")
    ∧ (deploy plainCfg timeoutWorld).sudoPassword = some ("hunter2") :=
  ⟨rfl, rfl⟩

/-- Claim C4 as amended: `this.sudoPassword` is set to the config password
at the start of every `deploy` invocation and is cleared by the time the
promise settles on the success, deployment-error and connection-error paths;
on the deployment-timeout path it is still set when the promise settles. -/
theorem C4_theorem (cfg : DeployConfig) (w : DeployWorld) :
    (deploy cfg w).sudoPassword
      = (match w.event with | SshEvent.timeout => some cfg.password | _ => none) := by
  obtain ⟨ev, exec⟩ := w
  cases ev with
  | timeout => rfl
  | errorEv l c m => rfl
  | ready =>
    rcases hr : runDeployBody cfg exec (some cfg.password) with ⟨res, steps⟩
    cases res with
    | ok r => simp only [deploy, hr]
    | error m => simp only [deploy, hr]

/-! ## C5 -/

/-- `replaceSudoPrefixStr` on a command of the form `sudo <rest>`. -/
theorem replaceSudoPrefix_eq (t : String) :
    replaceSudoPrefixStr ("sudo " ++ t) = "sudo -S " ++ String.mk (dropLeadingWs t.data) := rfl

/-- Counterexample to claim C5: `execCommand` performs no escalation-prompt
filtering. For an elevated command whose stream closes with a sudo password
prompt on stderr and a non-zero code, the close handler (lines 708-714)
forwards the raw prompt text to the log, and the promise resolves the raw
prompt text to the caller. -/
theorem C5_counterexample :
    execCommandCloseLogs ("sudo systemctl restart docker")
        (CmdResult.done ("") ("[sudo] password for clara: ") 1)
      = ["Command failed (code 1): sudo systemctl restart docker",
         "Error: [sudo] password for clara: "]
    ∧ strIncludesB ("Error: [sudo] password for clara: ") ("[sudo] password") = true
    ∧ execCommandE (fun _ => CmdResult.done ("") ("[sudo] password for clara: ") 1)
        (some ("hunter2")) ("sudo systemctl restart docker")
      = Except.ok ("[sudo] password for clara: ") := by
  refine ⟨rfl, by decide, rfl⟩

/-- If a pattern occurs in `a ++ b` but neither in `a` nor in `b`, the
occurrence crosses the junction and therefore covers the last character of
`a`, which is then a character of the pattern. -/
theorem listContains_cross (p b : List Char) :
    ∀ (a : List Char) (x : Char), a.getLast? = some x →
      listContains p a = false → listContains p b = false →
      listContains p (a ++ b) = true → x ∈ p := by
  intro a
  induction a with
  | nil => intro x hx _ _ _; simp at hx
  | cons y a2 ih =>
    intro x hx ha hb h
    have ha2 : p.isPrefixOf (y :: a2) = false ∧ listContains p a2 = false := by
      simpa [listContains, Bool.or_eq_false_iff] using ha
    have h2 : p.isPrefixOf (y :: (a2 ++ b)) = true ∨ listContains p (a2 ++ b) = true := by
      simpa [listContains, Bool.or_eq_true] using h
    cases h2 with
    | inl hpre =>
      have hp1 : p <+: y :: (a2 ++ b) := List.isPrefixOf_iff_prefix.mp hpre
      have hp2 : (y :: a2) <+: y :: (a2 ++ b) := List.prefix_append (y :: a2) b
      rcases List.prefix_or_prefix_of_prefix hp1 hp2 with hc | hc
      · exact absurd (List.isPrefixOf_iff_prefix.mpr hc) (by simp [ha2.1])
      · exact hc.subset (List.mem_of_mem_getLast? (Option.mem_def.mpr hx))
    | inr hrest =>
      cases a2 with
      | nil =>
        simp only [List.nil_append] at hrest
        exact absurd hrest (by simp [hb])
      | cons z a3 =>
        rw [List.getLast?_cons_cons] at hx
        exact ih x hx ha2.2 hb hrest

/-- Contrapositive form of `listContains_cross`: a pattern missing the last
character of `a` and occurring in neither part does not occur in `a ++ b`. -/
theorem listContains_append_false (p a b : List Char) (x : Char)
    (hx : a.getLast? = some x) (hxp : x ∉ p)
    (ha : listContains p a = false) (hb : listContains p b = false) :
    listContains p (a ++ b) = false := by
  cases h : listContains p (a ++ b) with
  | false => rfl
  | true => exact absurd (listContains_cross p b a x hx ha hb h) hxp

/-- String version of `listContains_append_false`: a pattern without the
final character of `L` that occurs in neither `L` nor `r` does not occur in
`L ++ r`. -/
theorem strIncludes_append_false (L r p : String) (x : Char)
    (hx : L.data.getLast? = some x) (hxp : x ∉ p.data)
    (hL : strIncludesB L p = false) (hr : strIncludesB r p = false) :
    strIncludesB (L ++ r) p = false :=
  listContains_append_false p.data L.data r.data x hx hxp hL hr

/-- Claim C5 as amended: (1) an elevated command (leading `sudo`, no
pipeline) is rewritten so the secret is echoed into the standard input of
`sudo -S` — a non-interactive channel; (2) `execCommandWithOutput`'s
forwarding filters drop every chunk containing escalation-prompt text (the
password prompt or the try-again line); (3) the failure log of `execCommand`
is built only from its fixed format text, the original (pre-rewrite) command
text and the raw stderr, so a secret occurring in none of those — and
containing no space character, the format strings' final character, so that
no occurrence can straddle a format/payload junction — appears in no logged
line; (4) likewise for the `[Remote] `-prefixed lines `execCommandWithOutput`
forwards. `execCommand`, however, performs no prompt filtering: it resolves
raw output to its caller and logs raw stderr (see the counterexample). -/
theorem C5_theorem :
    (∀ (p t : String), (p != "") = true →
      strIncludesB ("sudo " ++ t) ("|") = false →
      strStartsWith (jsTrim ("sudo " ++ t)) ("sudo ") = true →
      rewriteSudo (some p) ("sudo " ++ t)
        = "echo " ++ sq ++ escapeSudoPw p ++ sq ++ " | "
          ++ ("sudo -S " ++ String.mk (dropLeadingWs t.data)))
    ∧ (∀ chunk : String,
      (strIncludesB (jsTrim chunk) ("[sudo] password")
        || strIncludesB (jsTrim chunk) ("Sorry, try again")) = true →
      fwdStdoutChunk chunk = false ∧ fwdStderrChunk chunk = false)
    ∧ (∀ (secret cmd out err m : String) (code : Nat),
      Char.ofNat 32 ∉ secret.data →
      strIncludesB ("Command failed (code " ++ toString code ++ "): ") secret = false →
      strIncludesB ("Error: ") secret = false →
      strIncludesB cmd secret = false →
      strIncludesB err secret = false →
      m ∈ execCommandCloseLogs cmd (CmdResult.done out err code) →
      strIncludesB m secret = false)
    ∧ (∀ (secret chunk m : String),
      Char.ofNat 32 ∉ secret.data →
      strIncludesB ("[Remote] ") secret = false →
      strIncludesB (jsTrim chunk) secret = false →
      (fwdStdoutLog chunk = some m ∨ fwdStderrLog chunk = some m) →
      strIncludesB m secret = false) := by
  refine ⟨?_, ?_, ?_, ?_⟩
  · intro p t h1 h2 h3
    have hsudo : strIncludesB ("sudo " ++ t) ("sudo") = true := rfl
    simp only [rewriteSudo, h1, hsudo, h2, h3, Bool.and_self, Bool.false_and,
      Bool.and_true, Bool.true_and, if_true, if_false, Bool.and_false]
    rfl
  · intro chunk h
    rw [Bool.or_eq_true] at h
    cases h with
    | inl hp => constructor <;> simp [fwdStdoutChunk, fwdStderrChunk, hp]
    | inr hs => constructor <;> simp [fwdStdoutChunk, fwdStderrChunk, hs]
  · intro secret cmd out err m code hsp h1 h2 h3 h4 hm
    by_cases hc : (code != 0 && err != "") = true
    · simp only [execCommandCloseLogs, hc, if_true, List.mem_cons,
        List.mem_singleton] at hm
      rcases hm with hm | hm | hm
      · subst hm
        refine strIncludes_append_false _ _ _ (Char.ofNat 32) ?_ hsp h1 h3
        have hd : ("Command failed (code " ++ toString code ++ "): ").data
            = ("Command failed (code " ++ toString code).data ++ "): ".data := rfl
        rw [hd, List.getLast?_append]
        rfl
      · subst hm
        exact strIncludes_append_false _ _ _ (Char.ofNat 32) rfl hsp h2 h4
      · simp at hm
    · simp only [execCommandCloseLogs, hc, if_false] at hm
      simp at hm
  · intro secret chunk m hsp h1 h2 hm
    have key : m = "[Remote] " ++ jsTrim chunk := by
      cases hm with
      | inl h =>
        unfold fwdStdoutLog at h
        by_cases hf : fwdStdoutChunk chunk = true
        · simp [hf] at h; exact h.symm
        · simp [hf] at h
      | inr h =>
        unfold fwdStderrLog at h
        by_cases hf : fwdStderrChunk chunk = true
        · simp [hf] at h; exact h.symm
        · simp [hf] at h
    subst key
    exact strIncludes_append_false _ _ _ (Char.ofNat 32) rfl hsp h1 h2

/-- Witness for C5: each part at concrete inputs — a concrete elevated
command rewrite; a chunk carrying only the try-again line, dropped by both
filters; a failing elevated command whose two logged lines do not contain
the secret `hunter2`; and a forwarded benign chunk whose logged line does
not contain the secret either. -/
theorem C5_witness :
    (rewriteSudo (some ("hunter2")) ("sudo " ++ "systemctl restart docker")
      = "echo " ++ sq ++ escapeSudoPw ("hunter2") ++ sq ++ " | "
        ++ ("sudo -S " ++ String.mk (dropLeadingWs ("systemctl restart docker").data)))
    ∧ (fwdStdoutChunk ("Sorry, try again.") = false
        ∧ fwdStderrChunk ("Sorry, try again.") = false)
    ∧ strIncludesB ("Error: Sorry, try again.") ("hunter2") = false
    ∧ strIncludesB ("[Remote] Reading package lists... Done") ("hunter2") = false :=
  ⟨C5_theorem.1 ("hunter2") ("systemctl restart docker") (by decide) (by decide) (by decide),
   C5_theorem.2.1 ("Sorry, try again.") (by decide),
   C5_theorem.2.2.1 ("hunter2") ("sudo apt-get update") ("") ("Sorry, try again.")
     ("Error: Sorry, try again.") 100
     (by decide) (by decide) (by decide) (by decide) (by decide) (by decide),
   C5_theorem.2.2.2 ("hunter2") (" Reading package lists... Done ")
     ("[Remote] Reading package lists... Done")
     (by decide) (by decide) (by decide) (Or.inl (by decide))⟩

/-! ## C8 -/

/-- JS `a || ""` is `a`. -/
theorem jsOr_right_empty (s : String) : jsOr s ("") = s := by
  unfold jsOr
  by_cases h : s = ""
  · subst h; rfl
  · simp [h]





/-- Counterexample to claim C8: when the (successful) `docker logs` command
produces no output, the failure message ends at `Logs:` with an EMPTY
excerpt — the claim's non-empty-excerpt guarantee does not hold. -/
theorem C8_counterexample :
    (deploy c8cfg (c8World ("") ("dead: oom"))).settle
      = Settle.resolved false
          (some ("Container failed to start.\n\nStatus: dead: oom\n\nLogs:\n"))
    ∧ strSubstring 500 ("") = "" :=
  ⟨rfl, rfl⟩

/-- Claim C8 as amended: whenever the container is not observed running
after the bounded wait, `deploy` resolves failure with a message carrying
the inspect output and the first 500 characters of the captured logs
(then passed through the catch branch's message classifier); the excerpt is
exactly the truncation of whatever the logs command returned, and is empty
when that output is empty. -/
theorem C8_theorem (logsOut inspectOut : String) :
    (deploy c8cfg (c8World logsOut inspectOut)).settle
      = Settle.resolved false
          (some (classifyDeployError
            ("Container failed to start.\n\nStatus: " ++ inspectOut
              ++ "\n\nLogs:\n" ++ strSubstring 500 logsOut)))
    ∧ (deploy c8cfg (c8World logsOut inspectOut)).steps
      = [Step.checkingDocker, Step.cleaningUp, Step.pullingImage,
         Step.deploying, Step.verifying] := by
  constructor
  · conv_rhs => rw [← jsOr_right_empty inspectOut, ← jsOr_right_empty logsOut]
    rfl
  · rfl

/-! ## C9 -/





/-- Claim C9: whatever the cleanup commands return — any outputs, any exit
codes, in particular `No such container` on a first run — `deploy` enters
the cleaning-up region, swallows the results, proceeds to pulling-image and
resolves success. This covers running deploy twice in a row: neither the
run with an existing container nor the run without one fails at cleanup. -/
theorem C9_theorem (stopOut stopErr rmOut rmErr : String) (stopCode rmCode : Nat) :
    (deploy c9cfg (c9World stopOut stopErr rmOut rmErr stopCode rmCode)).settle
      = Settle.resolved true none
    ∧ (deploy c9cfg (c9World stopOut stopErr rmOut rmErr stopCode rmCode)).steps
      = [Step.checkingDocker, Step.cleaningUp, Step.pullingImage,
         Step.deploying, Step.verifying] :=
  ⟨rfl, rfl⟩

end Clara
